import Mathlib

/-!
Verification development for the LXD `physical` network driver
(`lxd/network/driver_physical.go`): a shallow embedding of the driver's
lifecycle operations (`checkParentUse`, `Create`, `start`/`Start`, `Stop`,
`Update`) over an explicit host/database state, together with theorems about
exclusivity, idempotence, rollback and the cluster client-type policy.

Host-level collaborators (interface creation/removal, MTU setting), the
`common` driver helpers and small shared utilities are not part of the
provided sources; where needed they are modelled from the specification and
are marked `Modelled from the spec:` in their doc comments.
-/

set_option maxHeartbeats 1000000
set_option linter.unusedVariables false
set_option linter.unreachableTactic false
set_option linter.unusedTactic false
set_option linter.unnecessarySeqFocus false

namespace network

/-- A network configuration: a flat map of string keys to string values,
embedded as an association list with unique keys (Go `map[string]string`).
Missing keys read as the empty string, as Go map indexing yields the zero
value. -/
abbrev Config := List (String × String)

/-- Read a config key; absent keys give `""` (Go zero-value semantics). -/
def cfgGet (c : Config) (k : String) : String :=
  match c with
  | [] => ""
  | p :: rest => if p.1 == k then p.2 else cfgGet rest k

/-- Remove a key from a config (Go `delete(m, k)`). -/
def cfgDel (c : Config) (k : String) : Config :=
  c.filter (fun p => p.1 != k)

/-- Set a key in a config (Go `m[k] = v`), keeping keys unique. -/
def cfgSet (c : Config) (k v : String) : Config :=
  (k, v) :: cfgDel c k

/-- The keys of a config. -/
def cfgKeys (c : Config) : List String :=
  c.map Prod.fst

/-- Modelled from the spec: `shared.IsTrue` on a string-encoded bool
(`volatile.last_state.created` is written with Go `%t`, i.e. `"true"` or
`"false"`). -/
def IsTrue (v : String) : Bool :=
  v == "true"

/-- Modelled from the spec: `GetHostDevice` derives the host interface name
from parent and VLAN — the parent itself when the VLAN is empty, else
`parent.vlan` (spec examples: parent `eth0` with vlan `""` gives `eth0`, with
vlan `"10"` gives `eth0.10`). -/
def GetHostDevice (parent vlan : String) : String :=
  if vlan == "" then parent else parent ++ "." ++ vlan

/-- Request client type (`request.ClientType`): `normal` for directly
originated requests, `notification` for cluster fan-out requests. -/
inductive ClientType where
  | normal
  | notification
deriving DecidableEq

/-- Network record status (`api.NetworkStatusPending` / `Created`). -/
inductive NetStatus where
  | pending
  | created
deriving DecidableEq

/-- A network record as seen by the cluster-wide scan (`api.Network`):
its name and its config. -/
structure NetRec where
  name : String
  config : Config
deriving DecidableEq

/-- Host networking state: the set of existing interfaces and the MTU values
that have been explicitly set on them. -/
structure HostState where
  ifaces : List String
  mtus : List (String × String)
deriving DecidableEq

/-- Fault switches for the external collaborators (host operations, the
cluster database); `true` makes the corresponding call fail. -/
structure Faults where
  createFails : Bool
  mtuFails : Bool
  dbFails : Bool
  scanFails : Bool
  removeFails : Bool
  warnFails : Bool
deriving DecidableEq

/-- The fault-free environment. -/
def noFaults : Faults :=
  ⟨false, false, false, false, false, false⟩

/-- Whole-system state: host networking state, the persisted database record
of this network (description and config), the active startup-failure warning,
whether the network is in use by instances (`IsUsed`), and the created
networks of every project as returned by `GetCreatedNetworks`. -/
structure Sys where
  host : HostState
  dbRecord : Option (String × Config)
  warning : Option String
  isUsed : Bool
  nets : List (String × List NetRec)
deriving DecidableEq

/-- The in-memory driver record (`physical` embedding `common`): name,
description, config and the two status granularities. -/
structure Physical where
  name : String
  description : String
  config : Config
  status : NetStatus
  localStatus : NetStatus
deriving DecidableEq

/-- Observable events of one lifecycle operation: a cluster-wide exclusivity
scan, the `IsUsed` check, entry into `Stop`/`Start`, a database write of a
record (description and config), and a dependency notification. -/
inductive Ev where
  | scan
  | checkInUse
  | stopCall
  | startCall
  | dbWrite (desc : String) (cfg : Config)
  | notifyDeps
deriving DecidableEq

/-- Result of a lifecycle operation: the driver record and system state after
the call, the returned error (if any) and the trace of observable events. -/
structure OpRes where
  drv : Physical
  sys : Sys
  err : Option String
  tr : List Ev
deriving DecidableEq

/-- Remove an interface from the host state (`InterfaceRemove`). -/
def interfaceRemove (h : HostState) (name : String) : HostState :=
  { h with ifaces := h.ifaces.filter (fun i => i != name) }

/-- Set an interface MTU in the host state (`ip.Link.SetMTU`). -/
def mtuSet (m : List (String × String)) (k v : String) : List (String × String) :=
  (k, v) :: m.filter (fun p => p.1 != k)

/-- Modelled from the spec: `VLANInterfaceCreate` creates the VLAN
sub-interface when a VLAN is configured and the interface does not already
exist, returning whether it created it; an empty VLAN or a pre-existing
interface yields `created = false` with no error (this is what makes a second
`Start` not fail with "already exists"). -/
def VLANInterfaceCreate (f : Faults) (h : HostState) (parent hostName vlan : String)
    (gvrp : Bool) : Except String (Bool × HostState) :=
  let created := vlan != "" && !(h.ifaces.contains hostName)
  if created && f.createFails then
    Except.error "Failed to create VLAN interface"
  else
    Except.ok (created, if created then { h with ifaces := hostName :: h.ifaces } else h)

/-- `physical.checkParentUse`: scans the created networks of every project;
only default-project networks are considered, the driver's own record is
skipped, and a record with the same parent conflicts when either VLAN is
empty or the two VLANs are equal. (`project.Default` is the `"default"`
project name.) -/
def checkParentUse (ourName : String) (nets : List (String × List NetRec))
    (ourConfig : Config) : Bool :=
  nets.any fun pr =>
    pr.1 == "default" && pr.2.any fun net =>
      !(net.name == ourName) &&
      (cfgGet net.config "parent" == cfgGet ourConfig "parent") &&
      ((cfgGet net.config "vlan" == "") || (cfgGet ourConfig "vlan" == "") ||
        (cfgGet net.config "vlan" == cfgGet ourConfig "vlan"))

/-- `physical.Create`: for a `normal` request, run the cluster-wide parent
scan once and fail when the parent is in use; for a `notification` request do
nothing. `Create` never mutates the host or the database. -/
def Create (f : Faults) (n : Physical) (st : Sys) (ct : ClientType) : OpRes :=
  match ct with
  | ClientType.notification => ⟨n, st, none, []⟩
  | ClientType.normal =>
    if f.scanFails then
      ⟨n, st, some "Failed to load all networks", [Ev.scan]⟩
    else if checkParentUse n.name st.nets n.config then
      ⟨n, st, some "Parent interface in use by another network", [Ev.scan]⟩
    else
      ⟨n, st, none, [Ev.scan]⟩

/-- `physical.start`: derive the host interface name, create the VLAN
interface (pushing its removal onto the revert scope if it was created), set
the MTU when configured, and — unless `volatile.last_state.created` is
already `"true"` — record whether the interface was created in the volatile
config and persist it. On any failure after creation the revert scope removes
the created interface (best effort, its own error ignored) before the error
is returned. -/
def start (f : Faults) (n : Physical) (st : Sys) : OpRes :=
  let parent := cfgGet n.config "parent"
  let vlan := cfgGet n.config "vlan"
  let hostName := GetHostDevice parent vlan
  match VLANInterfaceCreate f st.host parent hostName vlan (IsTrue (cfgGet n.config "gvrp")) with
  | Except.error e => ⟨n, st, some e, []⟩
  | Except.ok (created, h1) =>
    let rev := fun (h : HostState) =>
      if created && !f.removeFails then interfaceRemove h hostName else h
    let mtuV := cfgGet n.config "mtu"
    if mtuV != "" && f.mtuFails then
      ⟨n, { st with host := rev h1 }, some "Failed setting MTU", []⟩
    else
      let h2 := if mtuV != "" then { h1 with mtus := mtuSet h1.mtus hostName mtuV } else h1
      if !(IsTrue (cfgGet n.config "volatile.last_state.created")) then
        let cfg2 := cfgSet n.config "volatile.last_state.created"
          (if created then "true" else "false")
        let n2 := { n with config := cfg2 }
        if f.dbFails then
          ⟨n2, { st with host := rev h2 }, some "Failed saving volatile config", []⟩
        else
          ⟨n2, { st with host := h2, dbRecord := some (n.description, cfg2) }, none,
            [Ev.dbWrite n.description cfg2]⟩
      else
        ⟨n, { st with host := h2 }, none, []⟩

/-- `physical.Start`: runs `start` and then, best effort, upserts a
startup-failure warning on error or resolves it on success; a failure of the
warning calls themselves is logged and ignored and never alters the returned
error. -/
def Start (f : Faults) (n : Physical) (st : Sys) : OpRes :=
  let r := start f n st
  match r.err with
  | some e =>
    let sys2 := if f.warnFails then r.sys else { r.sys with warning := some e }
    ⟨r.drv, sys2, some e, r.tr⟩
  | none =>
    let sys2 := if f.warnFails then r.sys else { r.sys with warning := none }
    ⟨r.drv, sys2, none, r.tr⟩

/-- `physical.Stop`: remove the host interface only when a VLAN is
configured, `volatile.last_state.created` is `"true"` and the interface
exists; then reset the MTU to 1500 when an MTU is configured and the
interface (still) exists; finally delete `volatile.last_state.created` from
the config and persist the removal. -/
def Stop (f : Faults) (n : Physical) (st : Sys) : OpRes :=
  let vlan := cfgGet n.config "vlan"
  let hostName := GetHostDevice (cfgGet n.config "parent") vlan
  let doRemove := vlan != "" && IsTrue (cfgGet n.config "volatile.last_state.created") &&
    st.host.ifaces.contains hostName
  if doRemove && f.removeFails then
    ⟨n, st, some "Failed removing interface", []⟩
  else
    let h1 := if doRemove then interfaceRemove st.host hostName else st.host
    let doMTU := cfgGet n.config "mtu" != "" && h1.ifaces.contains hostName
    if doMTU && f.mtuFails then
      ⟨n, { st with host := h1 }, some "Failed setting MTU", []⟩
    else
      let h2 := if doMTU then { h1 with mtus := mtuSet h1.mtus hostName "1500" } else h1
      let cfg2 := cfgDel n.config "volatile.last_state.created"
      let n2 := { n with config := cfg2 }
      if f.dbFails then
        ⟨n2, { st with host := h2 }, some "Failed removing volatile config", []⟩
      else
        ⟨n2, { st with host := h2, dbRecord := some (n.description, cfg2) }, none,
          [Ev.dbWrite n.description cfg2]⟩

/-- The changed keys between an old and a new config: every key of either
map whose value (with Go zero-value reads) differs between the two. -/
def changedKeys (oldC newC : Config) : List String :=
  (cfgKeys oldC ++ cfgKeys newC).filter (fun k => cfgGet oldC k != cfgGet newC k)

/-- Modelled from the spec: `common.update` applies the new description and
config to the in-memory driver record and, only for a `normal` client type,
persists them to the cluster database (a `notification` request applies local
changes only, the originating member already updated the shared database). -/
def commonUpdate (f : Faults) (n : Physical) (st : Sys) (newDesc : String) (newCfg : Config)
    (targetNode : String) (ct : ClientType) : OpRes :=
  let n2 := { n with description := newDesc, config := newCfg }
  if ct == ClientType.normal then
    if f.dbFails then
      ⟨n2, st, some "Cannot persist configuration changes", []⟩
    else
      ⟨n2, { st with dbRecord := some (newDesc, newCfg) }, none, [Ev.dbWrite newDesc newCfg]⟩
  else
    ⟨n2, st, none, []⟩

/-- The revert scope of `physical.Update`: re-apply the old description and
config through `commonUpdate`, ignoring its error (reverts are best effort
and their traces are not primary actions). -/
def runRevert (f : Faults) (oldDesc : String) (oldCfg : Config) (n : Physical) (st : Sys)
    (targetNode : String) (ct : ClientType) : Physical × Sys :=
  let r := commonUpdate f n st oldDesc oldCfg targetNode ct
  (r.drv, r.sys)

/-- The tail of `physical.Update` after the checks and the stop phase:
persist the new config via `commonUpdate`, restart via `Start`, reverting to
the old record on failure of either, and notify dependent networks on success
for a `normal` request with at least one changed key. -/
def UpdateApply (f : Faults) (oldDesc : String) (oldCfg : Config) (cks : List String)
    (n : Physical) (st : Sys) (newDesc : String) (newCfg : Config) (targetNode : String)
    (ct : ClientType) (tr0 : List Ev) : OpRes :=
  let r1 := commonUpdate f n st newDesc newCfg targetNode ct
  match r1.err with
  | some e =>
    let rv := runRevert f oldDesc oldCfg r1.drv r1.sys targetNode ct
    ⟨rv.1, rv.2, some e, tr0 ++ r1.tr⟩
  | none =>
    let r2 := Start f r1.drv r1.sys
    match r2.err with
    | some e =>
      let rv := runRevert f oldDesc oldCfg r2.drv r2.sys targetNode ct
      ⟨rv.1, rv.2, some e, tr0 ++ r1.tr ++ [Ev.startCall] ++ r2.tr⟩
    | none =>
      if ct == ClientType.normal && !cks.isEmpty then
        ⟨r2.drv, r2.sys, none, tr0 ++ r1.tr ++ [Ev.startCall] ++ r2.tr ++ [Ev.notifyDeps]⟩
      else
        ⟨r2.drv, r2.sys, none, tr0 ++ r1.tr ++ [Ev.startCall] ++ r2.tr⟩

/-- `physical.Update`: no-op when neither description nor any config key
changed; database-only (`commonUpdate`) when the cluster-wide or local status
is pending; otherwise, when the parent or VLAN changed and the client type is
`normal`, first check the network is not in use and the new parent/VLAN is
not claimed elsewhere; then, when the parent or VLAN changed, stop under the
old config and strip `volatile.last_state.created` from the incoming config;
finally persist and restart via `UpdateApply`, reverting to the old record on
failure. -/
def Update (f : Faults) (n : Physical) (st : Sys) (newDesc : String) (newCfg : Config)
    (targetNode : String) (ct : ClientType) : OpRes :=
  let cks := changedKeys n.config newCfg
  if !((newDesc != n.description) || !cks.isEmpty) then
    ⟨n, st, none, []⟩
  else if n.status == NetStatus.pending || n.localStatus == NetStatus.pending then
    commonUpdate f n st newDesc newCfg targetNode ct
  else
    let hostNameChanged := cks.contains "vlan" || cks.contains "parent"
    if ct == ClientType.normal && hostNameChanged && st.isUsed then
      ⟨n, st, some "Cannot update network parent interface when in use", [Ev.checkInUse]⟩
    else if ct == ClientType.normal && hostNameChanged && f.scanFails then
      ⟨n, st, some "Failed to load all networks", [Ev.checkInUse, Ev.scan]⟩
    else if ct == ClientType.normal && hostNameChanged && checkParentUse n.name st.nets newCfg then
      ⟨n, st, some "Parent interface in use by another network", [Ev.checkInUse, Ev.scan]⟩
    else
      let tr0 := if ct == ClientType.normal && hostNameChanged then [Ev.checkInUse, Ev.scan] else []
      if hostNameChanged then
        let rs := Stop f n st
        match rs.err with
        | some e => ⟨rs.drv, rs.sys, some e, tr0 ++ [Ev.stopCall] ++ rs.tr⟩
        | none =>
          UpdateApply f n.description n.config cks rs.drv rs.sys newDesc
            (cfgDel newCfg "volatile.last_state.created") targetNode ct
            (tr0 ++ [Ev.stopCall] ++ rs.tr)
      else
        UpdateApply f n.description n.config cks n st newDesc newCfg targetNode ct tr0

theorem cfgGet_cfgDel_self (c : Config) (k : String) : cfgGet (cfgDel c k) k = "" := by
  induction c with
  | nil => rfl
  | cons p rest ih =>
    by_cases h : p.1 = k
    · simp [cfgDel, List.filter, h, bne_self_eq_false]
      simpa [cfgDel] using ih
    · simp only [cfgDel, List.filter] at ih ⊢
      have hb : (p.1 != k) = true := by simp [bne, h]
      rw [hb]
      simpa [cfgGet, h] using ih

theorem cfgGet_cfgDel_ne (c : Config) (k k' : String) (h : k' ≠ k) :
    cfgGet (cfgDel c k) k' = cfgGet c k' := by
  induction c with
  | nil => rfl
  | cons p rest ih =>
    by_cases hp : p.1 = k
    · have hb : (p.1 != k) = false := by simp [bne, hp]
      have hg : (p.1 == k') = false := by
        simp [hp]
        exact fun hk => (h hk.symm).elim
      simp only [cfgDel, List.filter, hb] at ih ⊢
      simpa [cfgGet, hg] using ih
    · have hb : (p.1 != k) = true := by simp [bne, hp]
      simp only [cfgDel, List.filter, hb] at ih ⊢
      by_cases hg : p.1 = k'
      · simp [cfgGet, hg]
      · simpa [cfgGet, hg] using ih

theorem cfgGet_cfgSet_self (c : Config) (k v : String) : cfgGet (cfgSet c k v) k = v := by
  simp [cfgSet, cfgGet]

theorem cfgGet_cfgSet_ne (c : Config) (k v k' : String) (h : k' ≠ k) :
    cfgGet (cfgSet c k v) k' = cfgGet c k' := by
  have hg : (k == k') = false := by
    simp
    exact fun hk => (h hk.symm).elim
  simp [cfgSet, cfgGet, hg, cfgGet_cfgDel_ne c k k' h]

theorem cfgDel_cfgDel (c : Config) (k : String) : cfgDel (cfgDel c k) k = cfgDel c k := by
  simp [cfgDel, List.filter_filter]

theorem cfgDel_cons_self (c : Config) (k v : String) : cfgDel ((k, v) :: c) k = cfgDel c k := by
  simp [cfgDel, List.filter_cons, bne_self_eq_false]

theorem cfgSet_idem (c : Config) (k v : String) : cfgSet (cfgSet c k v) k v = cfgSet c k v := by
  unfold cfgSet
  rw [cfgDel_cons_self, cfgDel_cfgDel]

theorem filter_bne_of_not_contains (l : List String) (a : String) (h : l.contains a = false) :
    l.filter (fun x => x != a) = l := by
  induction l with
  | nil => rfl
  | cons x rest ih =>
    simp only [List.contains_cons, Bool.or_eq_false_iff] at h
    have h1 : a ≠ x := by simpa using h.1
    have hx : (x != a) = true := bne_iff_ne.mpr (Ne.symm h1)
    simp [List.filter_cons, hx, ih h.2]

theorem mtuSet_idem (m : List (String × String)) (k v : String) :
    mtuSet (mtuSet m k v) k v = mtuSet m k v := by
  simp [mtuSet, List.filter_cons, bne_self_eq_false, List.filter_filter]

theorem cfgGet_cons (p : String × String) (rest : Config) (k : String) :
    cfgGet (p :: rest) k = if p.1 == k then p.2 else cfgGet rest k := rfl

theorem cfgGet_of_not_mem_keys (c : Config) (k : String) (h : ¬ k ∈ cfgKeys c) :
    cfgGet c k = "" := by
  induction c with
  | nil => rfl
  | cons p rest ih =>
    simp only [cfgKeys, List.map_cons, List.mem_cons] at h
    push_neg at h
    have hp : (p.1 == k) = false := by
      apply beq_eq_false_iff_ne.mpr
      intro hk
      exact h.1 hk.symm
    rw [cfgGet_cons, hp]
    simpa using ih h.2

theorem changedKeys_self (c : Config) : changedKeys c c = [] := by
  simp [changedKeys, List.filter_eq_nil_iff]

theorem changedKeys_nil_pointwise (a b : Config) (h : changedKeys a b = []) (k : String) :
    cfgGet a k = cfgGet b k := by
  by_cases hka : k ∈ cfgKeys a
  · have := List.filter_eq_nil_iff.mp h k (by simp [List.mem_append, hka])
    simpa [bne] using this
  · by_cases hkb : k ∈ cfgKeys b
    · have := List.filter_eq_nil_iff.mp h k (by simp [List.mem_append, hkb])
      simpa [bne] using this
    · rw [cfgGet_of_not_mem_keys a k hka, cfgGet_of_not_mem_keys b k hkb]

theorem isEmpty_false_of_contains (l : List String) (a : String) (h : l.contains a = true) :
    l.isEmpty = false := by
  cases l with
  | nil => simp at h
  | cons x rest => rfl

theorem filter_bne_of_not_mem (l : List String) (a : String) (h : a ∉ l) :
    l.filter (fun x => x != a) = l := by
  induction l with
  | nil => rfl
  | cons x rest ih =>
    rw [List.mem_cons] at h
    push_neg at h
    have hx : (x != a) = true := bne_iff_ne.mpr (fun hxa => h.1 hxa.symm)
    simp [List.filter_cons, hx, ih h.2]

theorem vlanCreate_ok (f : Faults) (h : HostState) (parent hostName vlan : String)
    (gvrp : Bool) (created : Bool) (h1 : HostState)
    (hv : VLANInterfaceCreate f h parent hostName vlan gvrp = Except.ok (created, h1)) :
    created = (vlan != "" && !(h.ifaces.contains hostName)) ∧
    h1 = (if (vlan != "" && !(h.ifaces.contains hostName)) = true
          then { h with ifaces := hostName :: h.ifaces } else h) := by
  simp only [VLANInterfaceCreate] at hv
  by_cases hcf : ((vlan != "" && !(h.ifaces.contains hostName)) && f.createFails) = true
  · rw [if_pos hcf] at hv
    exact absurd hv (by simp)
  · rw [if_neg hcf] at hv
    rw [Except.ok.injEq, Prod.mk.injEq] at hv
    exact ⟨hv.1.symm, hv.2.symm⟩

theorem checkParentUse_iff (ourName : String) (nets : List (String × List NetRec))
    (cfg : Config) :
    checkParentUse ourName nets cfg = true ↔
      ∃ pr ∈ nets, pr.1 = "default" ∧ ∃ net ∈ pr.2, net.name ≠ ourName ∧
        cfgGet net.config "parent" = cfgGet cfg "parent" ∧
        (cfgGet net.config "vlan" = "" ∨ cfgGet cfg "vlan" = "" ∨
          cfgGet net.config "vlan" = cfgGet cfg "vlan") := by
  unfold checkParentUse
  simp [List.any_eq_true, Bool.and_eq_true, Bool.or_eq_true, Bool.not_eq_true',
    beq_eq_false_iff_ne, and_assoc, or_assoc]

/-- C1: two distinct network records of the default project with the same
parent and overlapping VLAN claim (equal VLANs or either empty) make
`checkParentUse` report the parent in use, so `Create` with the `normal`
client type fails; records of other projects, records with a different
parent, records with two distinct non-empty VLANs, and the record's own
database entry never produce a conflict. Stated as: `Create`'s error is
equivalent to the existence of a conflicting default-project record. -/
theorem C1_parent_exclusivity (f : Faults) (n : Physical) (st : Sys)
    (hScan : f.scanFails = false) :
    (Create f n st ClientType.normal).err.isSome = true ↔
      ∃ pr ∈ st.nets, pr.1 = "default" ∧ ∃ net ∈ pr.2, net.name ≠ n.name ∧
        cfgGet net.config "parent" = cfgGet n.config "parent" ∧
        (cfgGet net.config "vlan" = "" ∨ cfgGet n.config "vlan" = "" ∨
          cfgGet net.config "vlan" = cfgGet n.config "vlan") := by
  rw [← checkParentUse_iff n.name st.nets n.config]
  unfold Create
  rw [hScan]
  by_cases hc : checkParentUse n.name st.nets n.config = true
  · simp [hc]
  · simp only [Bool.not_eq_true] at hc
    simp [hc]

/-- Witness for C1: a second record `physical1` claiming `eth0` VLAN `10`
conflicts with the created default-project record `physical0` on
`(eth0, 10)`. -/
theorem C1_parent_exclusivity_witness :
    (Create noFaults
      ⟨"physical1", "", [("parent", "eth0"), ("vlan", "10")], NetStatus.created,
        NetStatus.created⟩
      ⟨⟨[], []⟩, none, none, false,
        [("default", [⟨"physical0", [("parent", "eth0"), ("vlan", "10")]⟩])]⟩
      ClientType.normal).err.isSome = true := by
  exact (C1_parent_exclusivity noFaults _ _ rfl).mpr (by decide)

/-- C4: `Create` with the `notification` client type performs no exclusivity
scan and returns no error; with the `normal` client type it performs the scan
exactly once; and `Create` leaves the driver record and the whole system
state (host and database) untouched for either client type. -/
theorem C4_create_client_type_skip (f : Faults) (n : Physical) (st : Sys) :
    Create f n st ClientType.notification = ⟨n, st, none, []⟩ ∧
    (Create f n st ClientType.normal).tr = [Ev.scan] ∧
    (Create f n st ClientType.normal).drv = n ∧
    (Create f n st ClientType.normal).sys = st ∧
    (Create f n st ClientType.notification).tr = [] := by
  refine ⟨rfl, ?_, ?_, ?_, rfl⟩ <;>
    (unfold Create; split_ifs <;> rfl)

/-- C6: `Update` called with the record's current description and config is
an immediate no-op: it returns no error, leaves the record and the system
untouched, and its trace is empty (no Stop/Start, no database write, no
dependency notification). -/
theorem C6_update_noop (f : Faults) (n : Physical) (st : Sys) (tn : String)
    (ct : ClientType) :
    Update f n st n.description n.config tn ct = ⟨n, st, none, []⟩ := by
  unfold Update
  simp [changedKeys_self, bne_self_eq_false]

/-- C8: with a fault-free environment, `Stop` always deletes
`volatile.last_state.created` from the record's config and persists that
removal to the database, and it removes the host interface exactly when the
configured vlan is non-empty, `volatile.last_state.created` is `"true"`, and
the interface exists (so a created `eth0.10` is removed while a pre-existing
untagged parent is kept). -/
theorem C8_stop_volatile_and_removal (n : Physical) (st : Sys) :
    (Stop noFaults n st).err = none ∧
    (Stop noFaults n st).drv.config = cfgDel n.config "volatile.last_state.created" ∧
    (Stop noFaults n st).sys.dbRecord =
      some (n.description, cfgDel n.config "volatile.last_state.created") ∧
    (Stop noFaults n st).sys.host.ifaces =
      (if (cfgGet n.config "vlan" != "" &&
            IsTrue (cfgGet n.config "volatile.last_state.created") &&
            st.host.ifaces.contains
              (GetHostDevice (cfgGet n.config "parent") (cfgGet n.config "vlan"))) = true
        then st.host.ifaces.filter
          (fun i =>
            i != GetHostDevice (cfgGet n.config "parent") (cfgGet n.config "vlan"))
        else st.host.ifaces) := by
  unfold Stop
  simp [noFaults]
  split_ifs <;> simp [interfaceRemove]

/-- C10: when the configured vlan is empty, `Stop` never removes the host
interface — even if `volatile.last_state.created` is `"true"` and the
interface exists — and the only host mutation it may perform is resetting the
parent's MTU to 1500 when an `mtu` value is configured and the parent
exists. -/
theorem C10_stop_untagged_frame (n : Physical) (st : Sys)
    (h : cfgGet n.config "vlan" = "") :
    (Stop noFaults n st).err = none ∧
    (Stop noFaults n st).sys.host.ifaces = st.host.ifaces ∧
    (Stop noFaults n st).sys.host.mtus =
      (if (cfgGet n.config "mtu" != "" &&
            st.host.ifaces.contains (cfgGet n.config "parent")) = true
        then mtuSet st.host.mtus (cfgGet n.config "parent") "1500"
        else st.host.mtus) := by
  unfold Stop
  simp [noFaults, h, GetHostDevice]
  split_ifs <;> simp [interfaceRemove]

def c10n : Physical :=
  ⟨"physical0", "d",
    [("parent", "eth0"), ("mtu", "9000"), ("volatile.last_state.created", "true")],
    NetStatus.created, NetStatus.created⟩

def c10st : Sys :=
  ⟨⟨["eth0"], []⟩, some ("d", c10n.config), none, false, []⟩

/-- Witness for C10: an untagged record whose parent `eth0` pre-exists, with
`volatile.last_state.created = "true"` and an MTU override: `Stop` keeps
`eth0` and resets its MTU. -/
theorem C10_stop_untagged_frame_witness :
    cfgGet c10n.config "vlan" = "" ∧
    ((Stop noFaults c10n c10st).err = none ∧
     (Stop noFaults c10n c10st).sys.host.ifaces = c10st.host.ifaces ∧
     (Stop noFaults c10n c10st).sys.host.mtus =
       (if (cfgGet c10n.config "mtu" != "" &&
             c10st.host.ifaces.contains (cfgGet c10n.config "parent")) = true
         then mtuSet c10st.host.mtus (cfgGet c10n.config "parent") "1500"
         else c10st.host.mtus)) :=
  ⟨by decide, C10_stop_untagged_frame c10n c10st (by decide)⟩

/-- C3: if `start` fails at any step (after VLAN interface creation — e.g.
setting the MTU or persisting the volatile config fails), then, provided the
revert-scope removal itself does not fault, every host interface created by
that call has been removed again when the error is returned, and the
persisted database record (in particular its `volatile.last_state.created`
entry) is exactly what it was before the attempt. -/
theorem C3_start_rollback (f : Faults) (n : Physical) (st : Sys)
    (hRem : f.removeFails = false)
    (hErr : (start f n st).err.isSome = true) :
    (start f n st).sys.host.ifaces = st.host.ifaces ∧
    (start f n st).sys.dbRecord = st.dbRecord := by
  simp only [start] at hErr ⊢
  cases hv : VLANInterfaceCreate f st.host (cfgGet n.config "parent")
      (GetHostDevice (cfgGet n.config "parent") (cfgGet n.config "vlan"))
      (cfgGet n.config "vlan") (IsTrue (cfgGet n.config "gvrp")) with
  | error e => simp
  | ok p =>
    obtain ⟨created, h1⟩ := p
    rw [hv] at hErr
    obtain ⟨hc, hh⟩ := vlanCreate_ok f st.host _ _ _ _ created h1 hv
    subst hc
    subst hh
    split_ifs at hErr ⊢ <;>
      (try simp_all [interfaceRemove, List.filter_cons, bne_self_eq_false,
        filter_bne_of_not_mem]) <;>
      (try (split_ifs with hco <;>
        simp_all [interfaceRemove, List.filter_cons, bne_self_eq_false,
          filter_bne_of_not_mem]))

def c3f : Faults :=
  ⟨false, true, false, false, false, false⟩

def c3n : Physical :=
  ⟨"physical0", "d", [("parent", "eth0"), ("vlan", "10"), ("mtu", "1400")],
    NetStatus.created, NetStatus.created⟩

def c3st : Sys :=
  ⟨⟨["eth0"], []⟩, some ("d", c3n.config), none, false, []⟩

/-- Witness for C3: with VLAN `10` (so `eth0.10` gets created) and a faulting
MTU step, `start` fails and both the interface list and the database record
are unchanged. -/
theorem C3_start_rollback_witness :
    c3f.removeFails = false ∧ (start c3f c3n c3st).err.isSome = true ∧
    ((start c3f c3n c3st).sys.host.ifaces = c3st.host.ifaces ∧
     (start c3f c3n c3st).sys.dbRecord = c3st.dbRecord) :=
  ⟨rfl, by decide, C3_start_rollback c3f c3n c3st rfl (by decide)⟩

theorem start_nf (n : Physical) (st : Sys) :
    start noFaults n st =
      (let vlan := cfgGet n.config "vlan"
       let hostName := GetHostDevice (cfgGet n.config "parent") vlan
       let created := vlan != "" && !(st.host.ifaces.contains hostName)
       let h1 := if created then { st.host with ifaces := hostName :: st.host.ifaces }
                 else st.host
       let mtuV := cfgGet n.config "mtu"
       let h2 := if mtuV != "" then { h1 with mtus := mtuSet h1.mtus hostName mtuV } else h1
       if IsTrue (cfgGet n.config "volatile.last_state.created") then
         ⟨n, { st with host := h2 }, none, []⟩
       else
         let cfg2 := cfgSet n.config "volatile.last_state.created"
           (if created then "true" else "false")
         ⟨{ n with config := cfg2 },
           { st with host := h2, dbRecord := some (n.description, cfg2) }, none,
           [Ev.dbWrite n.description cfg2]⟩) := by
  simp only [start, VLANInterfaceCreate, noFaults, Bool.and_false, Bool.false_eq_true,
    if_false]
  split_ifs <;> simp_all

/-- C2: with a fault-free environment, running `start` twice in a row yields
exactly the state of running it once — the second call returns no error
(creation reports the interface as pre-existing instead of failing), the
driver record and the whole system state (host and database) are unchanged —
and when `volatile.last_state.created` is already `"true"` the second call's
trace is empty, so no database write happens and the key is not
overwritten. -/
theorem C2_start_idempotent (n : Physical) (st : Sys) :
    (start noFaults n st).err = none ∧
    (start noFaults (start noFaults n st).drv (start noFaults n st).sys).drv =
      (start noFaults n st).drv ∧
    (start noFaults (start noFaults n st).drv (start noFaults n st).sys).sys =
      (start noFaults n st).sys ∧
    (start noFaults (start noFaults n st).drv (start noFaults n st).sys).err = none ∧
    (IsTrue (cfgGet (start noFaults n st).drv.config "volatile.last_state.created") = true →
      (start noFaults (start noFaults n st).drv (start noFaults n st).sys).tr = []) := by
  simp only [start_nf]
  by_cases hb3 : IsTrue (cfgGet n.config "volatile.last_state.created") = true
  · simp only [hb3, if_true]
    by_cases hb1 : (cfgGet n.config "vlan" != "" &&
        !(st.host.ifaces.contains
          (GetHostDevice (cfgGet n.config "parent") (cfgGet n.config "vlan")))) = true
    · simp [hb1, hb3, List.contains_cons, mtuSet_idem]
      split_ifs <;> simp_all [mtuSet_idem]
    · simp [hb1, hb3, mtuSet_idem]
      split_ifs <;> simp_all [mtuSet_idem]
  · have hb3' : IsTrue (cfgGet n.config "volatile.last_state.created") = false := by
      simpa using hb3
    have hKvlan : ∀ v, cfgGet (cfgSet n.config "volatile.last_state.created" v) "vlan" =
        cfgGet n.config "vlan" := fun v => cfgGet_cfgSet_ne _ _ _ _ (by decide)
    have hKparent : ∀ v, cfgGet (cfgSet n.config "volatile.last_state.created" v) "parent" =
        cfgGet n.config "parent" := fun v => cfgGet_cfgSet_ne _ _ _ _ (by decide)
    have hKmtu : ∀ v, cfgGet (cfgSet n.config "volatile.last_state.created" v) "mtu" =
        cfgGet n.config "mtu" := fun v => cfgGet_cfgSet_ne _ _ _ _ (by decide)
    have hKvol : ∀ v, cfgGet (cfgSet n.config "volatile.last_state.created" v)
        "volatile.last_state.created" = v := fun v => cfgGet_cfgSet_self _ _ _
    by_cases hb1 : (cfgGet n.config "vlan" != "" &&
        !(st.host.ifaces.contains
          (GetHostDevice (cfgGet n.config "parent") (cfgGet n.config "vlan")))) = true
    · simp [hb3', hb1, hKvlan, hKparent, hKmtu, hKvol, IsTrue, List.contains_cons,
        mtuSet_idem]
      split_ifs <;> simp_all [mtuSet_idem]
    · simp [hb3', hb1, hKvlan, hKparent, hKmtu, hKvol, IsTrue, cfgSet_idem, mtuSet_idem]
      split_ifs <;> simp_all [mtuSet_idem, cfgSet_idem]

def c2n : Physical :=
  ⟨"physical0", "d", [("parent", "eth0"), ("vlan", "10"), ("mtu", "1400")],
    NetStatus.created, NetStatus.created⟩

def c2st : Sys :=
  ⟨⟨["eth0"], []⟩, some ("d", c2n.config), none, false, []⟩

/-- Witness for C2: after a first `start` that created `eth0.10` and recorded
`volatile.last_state.created = "true"`, the second `start` has an empty
trace — no database write. -/
theorem C2_start_idempotent_witness :
    IsTrue (cfgGet (start noFaults c2n c2st).drv.config "volatile.last_state.created") =
      true ∧
    (start noFaults (start noFaults c2n c2st).drv (start noFaults c2n c2st).sys).tr = [] :=
  ⟨by decide, (C2_start_idempotent c2n c2st).2.2.2.2 (by decide)⟩

theorem stop_tr_cases (f : Faults) (n : Physical) (st : Sys) :
    (Stop f n st).tr = [] ∨ ∃ d2 c2, (Stop f n st).tr = [Ev.dbWrite d2 c2] := by
  unfold Stop
  split_ifs <;> (try simp) <;> (split_ifs <;> simp)

theorem stop_tr_clean (f : Faults) (n : Physical) (st : Sys) :
    ∀ e ∈ (Stop f n st).tr, ∃ d2 c2, e = Ev.dbWrite d2 c2 := by
  intro e he
  rcases stop_tr_cases f n st with h | ⟨d2, c2, h⟩
  · rw [h] at he
    cases he
  · rw [h] at he
    simp only [List.mem_singleton] at he
    exact ⟨d2, c2, he⟩

theorem start_tr_cases (f : Faults) (n : Physical) (st : Sys) :
    (start f n st).tr = [] ∨ ∃ d2 c2, (start f n st).tr = [Ev.dbWrite d2 c2] := by
  simp only [start]
  cases hv : VLANInterfaceCreate f st.host (cfgGet n.config "parent")
      (GetHostDevice (cfgGet n.config "parent") (cfgGet n.config "vlan"))
      (cfgGet n.config "vlan") (IsTrue (cfgGet n.config "gvrp")) with
  | error e => simp
  | ok p =>
    obtain ⟨created, h1⟩ := p
    split_ifs <;> simp

theorem start_tr_clean (f : Faults) (n : Physical) (st : Sys) :
    ∀ e ∈ (start f n st).tr, ∃ d2 c2, e = Ev.dbWrite d2 c2 := by
  intro e he
  rcases start_tr_cases f n st with h | ⟨d2, c2, h⟩
  · rw [h] at he
    cases he
  · rw [h] at he
    simp only [List.mem_singleton] at he
    exact ⟨d2, c2, he⟩

theorem Start_eq_start (f : Faults) (n : Physical) (st : Sys) :
    (Start f n st).err = (start f n st).err ∧ (Start f n st).tr = (start f n st).tr ∧
    (Start f n st).drv = (start f n st).drv := by
  simp only [Start]
  cases he : (start f n st).err <;> split_ifs <;> simp

theorem commonUpdate_tr_cases (f : Faults) (n : Physical) (st : Sys) (d : String)
    (c : Config) (tn : String) (ct : ClientType) :
    (commonUpdate f n st d c tn ct).tr = [] ∨
    ∃ d2 c2, (commonUpdate f n st d c tn ct).tr = [Ev.dbWrite d2 c2] := by
  unfold commonUpdate
  split_ifs <;> simp

theorem commonUpdate_tr_clean (f : Faults) (n : Physical) (st : Sys) (d : String)
    (c : Config) (tn : String) (ct : ClientType) :
    ∀ e ∈ (commonUpdate f n st d c tn ct).tr, ∃ d2 c2, e = Ev.dbWrite d2 c2 := by
  intro e he
  rcases commonUpdate_tr_cases f n st d c tn ct with h | ⟨d2, c2, h⟩
  · rw [h] at he
    cases he
  · rw [h] at he
    simp only [List.mem_singleton] at he
    exact ⟨d2, c2, he⟩

theorem commonUpdate_host (f : Faults) (n : Physical) (st : Sys) (d : String) (c : Config)
    (tn : String) (ct : ClientType) :
    (commonUpdate f n st d c tn ct).sys.host = st.host := by
  unfold commonUpdate
  split_ifs <;> rfl

theorem commonUpdate_db_normal (f : Faults) (n : Physical) (st : Sys) (d : String)
    (c : Config) (tn : String) (hdf : f.dbFails = false) :
    (commonUpdate f n st d c tn ClientType.normal).sys.dbRecord = some (d, c) := by
  unfold commonUpdate
  simp [hdf]

theorem commonUpdate_err_db (f : Faults) (n : Physical) (st : Sys) (d : String)
    (c : Config) (tn : String) (ct : ClientType)
    (he : (commonUpdate f n st d c tn ct).err.isSome = true) :
    (commonUpdate f n st d c tn ct).sys.dbRecord = st.dbRecord ∧ f.dbFails = true ∧
    ct = ClientType.normal := by
  unfold commonUpdate at he ⊢
  split_ifs at he ⊢ <;> simp_all

theorem runRevert_db (f : Faults) (od : String) (oc : Config) (n : Physical) (st : Sys)
    (tn : String) :
    (runRevert f od oc n st tn ClientType.normal).2.dbRecord =
      (if f.dbFails then st.dbRecord else some (od, oc)) := by
  unfold runRevert commonUpdate
  split_ifs <;> simp_all

/-- C5: on a record whose cluster-wide or local status is pending, `Update`
(for any new description/config, target node and client type) never enters
`Start` or `Stop`, performs no host mutation, and does nothing beyond the
database update: for a `normal` request with a working database it persists
exactly the new description and (pointwise) the new config. -/
theorem C5_update_pending (f : Faults) (n : Physical) (st : Sys) (d : String) (c : Config)
    (tn : String) (ct : ClientType)
    (hp : n.status = NetStatus.pending ∨ n.localStatus = NetStatus.pending) :
    (Update f n st d c tn ct).sys.host = st.host ∧
    Ev.startCall ∉ (Update f n st d c tn ct).tr ∧
    Ev.stopCall ∉ (Update f n st d c tn ct).tr ∧
    (ct = ClientType.normal → f.dbFails = false →
      st.dbRecord = some (n.description, n.config) →
      ∃ c2, (Update f n st d c tn ct).sys.dbRecord = some (d, c2) ∧
        ∀ k, cfgGet c2 k = cfgGet c k) := by
  have hpb : (n.status == NetStatus.pending || n.localStatus == NetStatus.pending) = true := by
    rcases hp with h | h <;> simp [h]
  simp only [Update]
  by_cases hdb : (!((d != n.description) || !(changedKeys n.config c).isEmpty)) = true
  · rw [if_pos hdb]
    have h1 : (d != n.description) = false ∧ (changedKeys n.config c).isEmpty = true := by
      simpa [Bool.or_eq_false_iff] using hdb
    have hd : d = n.description := by simpa using h1.1
    have hcks : changedKeys n.config c = [] := by
      simpa [List.isEmpty_iff] using h1.2
    refine ⟨rfl, by simp, by simp, ?_⟩
    intro hct hdf hinv
    refine ⟨n.config, ?_, fun k => changedKeys_nil_pointwise n.config c hcks k⟩
    rw [hinv, hd]
  · rw [if_neg hdb, if_pos hpb]
    refine ⟨commonUpdate_host f n st d c tn ct, ?_, ?_, ?_⟩
    · intro hm
      obtain ⟨d2, c2, hcc⟩ := commonUpdate_tr_clean f n st d c tn ct _ hm
      exact absurd hcc (by simp)
    · intro hm
      obtain ⟨d2, c2, hcc⟩ := commonUpdate_tr_clean f n st d c tn ct _ hm
      exact absurd hcc (by simp)
    · intro hct hdf hinv
      subst hct
      exact ⟨c, commonUpdate_db_normal f n st d c tn hdf, fun k => rfl⟩

def c5n : Physical :=
  ⟨"physical0", "d", [("parent", "eth0")], NetStatus.pending, NetStatus.pending⟩

def c5st : Sys :=
  ⟨⟨["eth0"], []⟩, some ("d", c5n.config), none, false, []⟩

def c5new : Config :=
  [("parent", "eth1")]

/-- Witness for C5: updating the parent of a pending record touches neither
the host nor Start/Stop and persists the new config. -/
theorem C5_update_pending_witness :
    (c5n.status = NetStatus.pending ∨ c5n.localStatus = NetStatus.pending) ∧
    ((Update noFaults c5n c5st "d" c5new "" ClientType.normal).sys.host = c5st.host ∧
     Ev.startCall ∉ (Update noFaults c5n c5st "d" c5new "" ClientType.normal).tr ∧
     Ev.stopCall ∉ (Update noFaults c5n c5st "d" c5new "" ClientType.normal).tr ∧
     (ClientType.normal = ClientType.normal → noFaults.dbFails = false →
       c5st.dbRecord = some (c5n.description, c5n.config) →
       ∃ c2, (Update noFaults c5n c5st "d" c5new "" ClientType.normal).sys.dbRecord =
           some ("d", c2) ∧ ∀ k, cfgGet c2 k = cfgGet c5new k)) :=
  ⟨Or.inl rfl,
    C5_update_pending noFaults c5n c5st "d" c5new "" ClientType.normal (Or.inl rfl)⟩

theorem updateApply_notify (f : Faults) (od : String) (oc : Config) (cks : List String)
    (n : Physical) (st : Sys) (d : String) (c : Config) (tn : String) (ct : ClientType)
    (tr0 : List Ev) (h0 : Ev.notifyDeps ∉ tr0) :
    Ev.notifyDeps ∈ (UpdateApply f od oc cks n st d c tn ct tr0).tr ↔
      ((UpdateApply f od oc cks n st d c tn ct tr0).err = none ∧
        ct = ClientType.normal ∧ cks ≠ []) := by
  have h1 : Ev.notifyDeps ∉ (commonUpdate f n st d c tn ct).tr := fun hm => by
    obtain ⟨d2, c2, hc2⟩ := commonUpdate_tr_clean f n st d c tn ct _ hm
    exact absurd hc2 (by simp)
  simp only [UpdateApply]
  cases he1 : (commonUpdate f n st d c tn ct).err with
  | some e => simp [List.mem_append, h0, h1]
  | none =>
    have h2 : Ev.notifyDeps ∉
        (Start f (commonUpdate f n st d c tn ct).drv (commonUpdate f n st d c tn ct).sys).tr := by
      rw [(Start_eq_start f _ _).2.1]
      intro hm
      obtain ⟨d2, c2, hc2⟩ := start_tr_clean f _ _ _ hm
      exact absurd hc2 (by simp)
    cases he2 : (Start f (commonUpdate f n st d c tn ct).drv
        (commonUpdate f n st d c tn ct).sys).err with
    | some e => simp [List.mem_append, h0, h1, h2]
    | none =>
      by_cases hb : (ct == ClientType.normal && !cks.isEmpty) = true
      · rw [if_pos hb]
        have hb2 : ct = ClientType.normal ∧ cks ≠ [] := by
          rcases Bool.and_eq_true_iff.mp hb with ⟨hb3, hb4⟩
          refine ⟨by simpa using hb3, ?_⟩
          simpa [List.isEmpty_iff] using hb4
        simp [List.mem_append, hb2.1, hb2.2]
      · rw [if_neg hb]
        have hb2 : ¬(ct = ClientType.normal ∧ cks ≠ []) := by
          intro hcon
          apply hb
          simp [hcon.1, List.isEmpty_iff, hcon.2]
        simp [List.mem_append, h0, h1, h2, hb2]

def c9n : Physical :=
  ⟨"physical0", "d", [("parent", "eth0")], NetStatus.pending, NetStatus.pending⟩

def c9st : Sys :=
  ⟨⟨["eth0"], []⟩, some ("d", c9n.config), none, false, []⟩

/-- Counterexample to C9 as stated: for a pending record, a `normal` Update
that changes a config key succeeds, yet no dependency notification happens —
the pending short-circuit returns before the notification step — so
"notification iff success, normal client and a changed key" fails. -/
theorem C9_counterexample :
    (Update noFaults c9n c9st "d" [("parent", "eth1")] "" ClientType.normal).err = none ∧
    changedKeys c9n.config [("parent", "eth1")] ≠ [] ∧
    Ev.notifyDeps ∉
      (Update noFaults c9n c9st "d" [("parent", "eth1")] "" ClientType.normal).tr := by
  refine ⟨by decide, by decide, by decide⟩

/-- C9 (amended): dependency notification after `Update` happens if and only
if the update succeeded, the client type is `normal`, at least one config key
changed, and the record was not pending (the pending short-circuit updates
the database without notifying); and a failure of the best-effort warning
calls never changes `Start`'s result — `Start` returns exactly the error (or
none) of the underlying `start` step for every fault environment. -/
theorem C9_notify_iff (f : Faults) (n : Physical) (st : Sys) (d : String) (c : Config)
    (tn : String) (ct : ClientType) :
    (Ev.notifyDeps ∈ (Update f n st d c tn ct).tr ↔
      ((Update f n st d c tn ct).err = none ∧ ct = ClientType.normal ∧
        changedKeys n.config c ≠ [] ∧
        ¬(n.status = NetStatus.pending ∨ n.localStatus = NetStatus.pending))) ∧
    (Start f n st).err = (start f n st).err := by
  refine ⟨?_, (Start_eq_start f n st).1⟩
  have hstop : Ev.notifyDeps ∉ (Stop f n st).tr := fun hm => by
    obtain ⟨d2, c2, hc2⟩ := stop_tr_clean f n st _ hm
    exact absurd hc2 (by simp)
  simp only [Update]
  by_cases hdb : (!((d != n.description) || !(changedKeys n.config c).isEmpty)) = true
  · rw [if_pos hdb]
    have hcks : changedKeys n.config c = [] := by
      have h := hdb
      simp at h
      exact h.2
    simp [hcks]
  · rw [if_neg hdb]
    by_cases hpb : (n.status == NetStatus.pending || n.localStatus == NetStatus.pending) = true
    · rw [if_pos hpb]
      have hpend : n.status = NetStatus.pending ∨ n.localStatus = NetStatus.pending := by
        rcases Bool.or_eq_true_iff.mp hpb with h | h
        · exact Or.inl (by simpa using h)
        · exact Or.inr (by simpa using h)
      have h1 : Ev.notifyDeps ∉ (commonUpdate f n st d c tn ct).tr := fun hm => by
        obtain ⟨d2, c2, hc2⟩ := commonUpdate_tr_clean f n st d c tn ct _ hm
        exact absurd hc2 (by simp)
      simp [h1, hpend]
    · rw [if_neg hpb]
      have hpend : ¬(n.status = NetStatus.pending ∨ n.localStatus = NetStatus.pending) := by
        intro hcon
        apply hpb
        rcases hcon with h | h <;> simp [h]
      by_cases hc1 : (ct == ClientType.normal &&
          ((changedKeys n.config c).contains "vlan" ||
            (changedKeys n.config c).contains "parent") && st.isUsed) = true
      · rw [if_pos hc1]
        simp
      · rw [if_neg hc1]
        by_cases hc2 : (ct == ClientType.normal &&
            ((changedKeys n.config c).contains "vlan" ||
              (changedKeys n.config c).contains "parent") && f.scanFails) = true
        · rw [if_pos hc2]
          simp
        · rw [if_neg hc2]
          by_cases hc3 : (ct == ClientType.normal &&
              ((changedKeys n.config c).contains "vlan" ||
                (changedKeys n.config c).contains "parent") &&
              checkParentUse n.name st.nets c) = true
          · rw [if_pos hc3]
            simp
          · rw [if_neg hc3]
            have h0 : Ev.notifyDeps ∉
                (if (ct == ClientType.normal &&
                    ((changedKeys n.config c).contains "vlan" ||
                      (changedKeys n.config c).contains "parent")) = true
                  then [Ev.checkInUse, Ev.scan] else []) := by
              split_ifs <;> simp
            by_cases hhc : ((changedKeys n.config c).contains "vlan" ||
                (changedKeys n.config c).contains "parent") = true
            · rw [if_pos hhc]
              cases hse : (Stop f n st).err with
              | some e => simp [List.mem_append, h0, hstop]
              | none =>
                have h0b : Ev.notifyDeps ∉
                    ((if (ct == ClientType.normal &&
                        ((changedKeys n.config c).contains "vlan" ||
                          (changedKeys n.config c).contains "parent")) = true
                      then [Ev.checkInUse, Ev.scan] else []) ++ [Ev.stopCall] ++
                      (Stop f n st).tr) := by
                  simp [List.mem_append, h0, hstop]
                rw [updateApply_notify f n.description n.config (changedKeys n.config c)
                  (Stop f n st).drv (Stop f n st).sys d
                  (cfgDel c "volatile.last_state.created") tn ct _ h0b]
                simp [hpend]
            · rw [if_neg hhc]
              rw [updateApply_notify f n.description n.config (changedKeys n.config c)
                n st d c tn ct _ h0]
              simp [hpend]
theorem stop_nf (n : Physical) (st : Sys) :
    Stop noFaults n st =
      (let vlan := cfgGet n.config "vlan"
       let hostName := GetHostDevice (cfgGet n.config "parent") vlan
       let doRemove := vlan != "" &&
         IsTrue (cfgGet n.config "volatile.last_state.created") &&
         st.host.ifaces.contains hostName
       let h1 := if doRemove then interfaceRemove st.host hostName else st.host
       let doMTU := cfgGet n.config "mtu" != "" && h1.ifaces.contains hostName
       let h2 := if doMTU then { h1 with mtus := mtuSet h1.mtus hostName "1500" } else h1
       let cfg2 := cfgDel n.config "volatile.last_state.created"
       ⟨{ n with config := cfg2 },
        { st with host := h2, dbRecord := some (n.description, cfg2) }, none,
        [Ev.dbWrite n.description cfg2]⟩) := by
  unfold Stop
  simp only [noFaults, Bool.and_false, Bool.false_eq_true, if_false]

theorem commonUpdate_nf (n : Physical) (st : Sys) (d : String) (c : Config) (tn : String) :
    commonUpdate noFaults n st d c tn ClientType.normal =
      ⟨{ n with description := d, config := c },
       { st with dbRecord := some (d, c) }, none, [Ev.dbWrite d c]⟩ := by
  unfold commonUpdate
  simp [noFaults]

theorem Start_tr_clean (f : Faults) (n : Physical) (st : Sys) :
    ∀ e ∈ (Start f n st).tr, ∃ d2 c2, e = Ev.dbWrite d2 c2 := by
  rw [(Start_eq_start f n st).2.1]
  exact start_tr_clean f n st

theorem updateApply_tr_shape (f : Faults) (od : String) (oc : Config) (cks : List String)
    (n : Physical) (st : Sys) (d : String) (c : Config) (tn : String) (ct : ClientType)
    (tr0 : List Ev) :
    ∀ e ∈ (UpdateApply f od oc cks n st d c tn ct tr0).tr,
      e ∈ tr0 ∨ e = Ev.startCall ∨ e = Ev.notifyDeps ∨ ∃ d2 c2, e = Ev.dbWrite d2 c2 := by
  simp only [UpdateApply]
  cases he1 : (commonUpdate f n st d c tn ct).err with
  | some e2 =>
    intro e he
    rcases List.mem_append.mp he with h | h
    · exact Or.inl h
    · exact Or.inr (Or.inr (Or.inr (commonUpdate_tr_clean f n st d c tn ct e h)))
  | none =>
    cases he2 : (Start f (commonUpdate f n st d c tn ct).drv
        (commonUpdate f n st d c tn ct).sys).err with
    | some e2 =>
      intro e he
      simp only [List.append_assoc, List.mem_append, List.mem_singleton] at he
      rcases he with h | h | h | h
      · exact Or.inl h
      · exact Or.inr (Or.inr (Or.inr (commonUpdate_tr_clean f n st d c tn ct e h)))
      · exact Or.inr (Or.inl h)
      · exact Or.inr (Or.inr (Or.inr (Start_tr_clean f _ _ e h)))
    | none =>
      split_ifs with hb
      · intro e he
        simp only [List.append_assoc, List.mem_append, List.mem_singleton] at he
        rcases he with h | h | h | h | h
        · exact Or.inl h
        · exact Or.inr (Or.inr (Or.inr (commonUpdate_tr_clean f n st d c tn ct e h)))
        · exact Or.inr (Or.inl h)
        · exact Or.inr (Or.inr (Or.inr (Start_tr_clean f _ _ e h)))
        · exact Or.inr (Or.inr (Or.inl h))
      · intro e he
        simp only [List.append_assoc, List.mem_append, List.mem_singleton] at he
        rcases he with h | h | h | h
        · exact Or.inl h
        · exact Or.inr (Or.inr (Or.inr (commonUpdate_tr_clean f n st d c tn ct e h)))
        · exact Or.inr (Or.inl h)
        · exact Or.inr (Or.inr (Or.inr (Start_tr_clean f _ _ e h)))

theorem update_notif_tr (f : Faults) (n : Physical) (st : Sys) (d : String) (c : Config)
    (tn : String) :
    ∀ e ∈ (Update f n st d c tn ClientType.notification).tr,
      e = Ev.stopCall ∨ e = Ev.startCall ∨ e = Ev.notifyDeps ∨
        ∃ d2 c2, e = Ev.dbWrite d2 c2 := by
  have e0 : (ClientType.notification == ClientType.normal) = false := by decide
  simp only [Update, e0, Bool.false_and, Bool.false_eq_true, if_false]
  by_cases hdb : (!((d != n.description) || !(changedKeys n.config c).isEmpty)) = true
  · rw [if_pos hdb]
    intro e he
    cases he
  · rw [if_neg hdb]
    by_cases hpb : (n.status == NetStatus.pending || n.localStatus == NetStatus.pending) = true
    · rw [if_pos hpb]
      intro e he
      exact Or.inr (Or.inr (Or.inr (commonUpdate_tr_clean f n st d c tn _ e he)))
    · rw [if_neg hpb]
      by_cases hhc : ((changedKeys n.config c).contains "vlan" ||
          (changedKeys n.config c).contains "parent") = true
      · rw [if_pos hhc]
        cases hse : (Stop f n st).err with
        | some e2 =>
          intro e he
          simp only [List.nil_append, List.mem_append, List.mem_cons, List.mem_singleton,
            List.not_mem_nil, or_false, false_or] at he
          rcases he with h | h
          · exact Or.inl h
          · exact Or.inr (Or.inr (Or.inr (stop_tr_clean f n st e h)))
        | none =>
          intro e he
          rcases updateApply_tr_shape f n.description n.config (changedKeys n.config c)
            (Stop f n st).drv (Stop f n st).sys d
            (cfgDel c "volatile.last_state.created") tn ClientType.notification _ e he with
            h | h | h | h
          · rcases List.mem_append.mp h with h2 | h2
            · rcases List.mem_append.mp h2 with h3 | h3
              · cases h3
              · simp only [List.mem_singleton] at h3
                exact Or.inl h3
            · exact Or.inr (Or.inr (Or.inr (stop_tr_clean f n st e h2)))
          · exact Or.inr (Or.inl h)
          · exact Or.inr (Or.inr (Or.inl h))
          · exact Or.inr (Or.inr (Or.inr h))
      · rw [if_neg hhc]
        intro e he
        rcases updateApply_tr_shape f n.description n.config (changedKeys n.config c)
          n st d c tn ClientType.notification [] e he with h | h | h | h
        · cases h
        · exact Or.inr (Or.inl h)
        · exact Or.inr (Or.inr (Or.inl h))
        · exact Or.inr (Or.inr (Or.inr h))

theorem stop_err_db (f : Faults) (n : Physical) (st : Sys)
    (he : (Stop f n st).err.isSome = true) :
    (Stop f n st).sys.dbRecord = st.dbRecord := by
  unfold Stop at he ⊢
  split_ifs at he ⊢ <;> (try simp_all) <;> (split_ifs at he ⊢ <;> simp_all)

theorem stop_ok_dbFails (f : Faults) (n : Physical) (st : Sys)
    (he : (Stop f n st).err = none) : f.dbFails = false := by
  unfold Stop at he
  split_ifs at he <;> (try simp_all) <;> (split_ifs at he <;> simp_all)

theorem updateApply_fail_db (f : Faults) (od : String) (oc : Config) (cks : List String)
    (n : Physical) (st : Sys) (d : String) (c : Config) (tn : String) (tr0 : List Ev)
    (he : (UpdateApply f od oc cks n st d c tn ClientType.normal tr0).err.isSome = true) :
    (UpdateApply f od oc cks n st d c tn ClientType.normal tr0).sys.dbRecord =
      (if f.dbFails = true then st.dbRecord else some (od, oc)) := by
  simp only [UpdateApply] at he ⊢
  cases he1 : (commonUpdate f n st d c tn ClientType.normal).err with
  | some e =>
    have hdb := commonUpdate_err_db f n st d c tn ClientType.normal (by rw [he1]; rfl)
    simp only [runRevert_db]
    rw [hdb.2.1]
    simp [hdb.1]
  | none =>
    have hdf : f.dbFails = false := by
      unfold commonUpdate at he1
      split_ifs at he1 <;> simp_all
    cases he2 : (Start f (commonUpdate f n st d c tn ClientType.normal).drv
        (commonUpdate f n st d c tn ClientType.normal).sys).err with
    | some e =>
      simp only [runRevert_db]
      rw [hdf]
      simp
    | none =>
      rw [he1, he2] at he
      split_ifs at he <;> simp at he

theorem update_fail_restores_db (f : Faults) (n : Physical) (st : Sys) (d : String)
    (c : Config) (tn : String)
    (hinv : st.dbRecord = some (n.description, n.config))
    (herr : (Update f n st d c tn ClientType.normal).err.isSome = true) :
    (Update f n st d c tn ClientType.normal).sys.dbRecord =
      some (n.description, n.config) := by
  simp only [Update] at herr ⊢
  by_cases hdb : (!((d != n.description) || !(changedKeys n.config c).isEmpty)) = true
  · rw [if_pos hdb] at herr
    simp at herr
  · rw [if_neg hdb] at herr ⊢
    by_cases hpb : (n.status == NetStatus.pending || n.localStatus == NetStatus.pending) = true
    · rw [if_pos hpb] at herr ⊢
      have hcd := commonUpdate_err_db f n st d c tn ClientType.normal herr
      rw [hcd.1, hinv]
    · rw [if_neg hpb] at herr ⊢
      by_cases hc1 : (ClientType.normal == ClientType.normal &&
          ((changedKeys n.config c).contains "vlan" ||
            (changedKeys n.config c).contains "parent") && st.isUsed) = true
      · rw [if_pos hc1] at herr ⊢
        exact hinv
      · rw [if_neg hc1] at herr ⊢
        by_cases hc2 : (ClientType.normal == ClientType.normal &&
            ((changedKeys n.config c).contains "vlan" ||
              (changedKeys n.config c).contains "parent") && f.scanFails) = true
        · rw [if_pos hc2] at herr ⊢
          exact hinv
        · rw [if_neg hc2] at herr ⊢
          by_cases hc3 : (ClientType.normal == ClientType.normal &&
              ((changedKeys n.config c).contains "vlan" ||
                (changedKeys n.config c).contains "parent") &&
              checkParentUse n.name st.nets c) = true
          · rw [if_pos hc3] at herr ⊢
            exact hinv
          · rw [if_neg hc3] at herr ⊢
            by_cases hhc : ((changedKeys n.config c).contains "vlan" ||
                (changedKeys n.config c).contains "parent") = true
            · rw [if_pos hhc] at herr ⊢
              cases hse : (Stop f n st).err with
              | some e =>
                have hsdb := stop_err_db f n st (by rw [hse]; rfl)
                simpa [hsdb] using hinv
              | none =>
                rw [hse] at herr
                have hdf : f.dbFails = false := stop_ok_dbFails f n st hse
                show (UpdateApply f n.description n.config (changedKeys n.config c)
                    (Stop f n st).drv (Stop f n st).sys d
                    (cfgDel c "volatile.last_state.created") tn ClientType.normal
                    ((if (ClientType.normal == ClientType.normal &&
                        ((changedKeys n.config c).contains "vlan" ||
                          (changedKeys n.config c).contains "parent")) = true
                      then [Ev.checkInUse, Ev.scan] else []) ++ [Ev.stopCall] ++
                      (Stop f n st).tr)).sys.dbRecord = some (n.description, n.config)
                rw [updateApply_fail_db f n.description n.config (changedKeys n.config c)
                  (Stop f n st).drv (Stop f n st).sys d
                  (cfgDel c "volatile.last_state.created") tn _ herr]
                rw [hdf]
                simp
            · rw [if_neg hhc] at herr ⊢
              rw [updateApply_fail_db f n.description n.config (changedKeys n.config c)
                n st d c tn _ herr]
              split_ifs with hdf
              · exact hinv
              · rfl

/-- C7: for a started record (neither status pending), an `Update` whose
changed keys include `parent` or `vlan` proceeds, for a `normal` request in a
fault-free environment with the record not in use and the new parent/VLAN
unclaimed, in this order: in-use check, cluster-wide scan, `Stop` under the
old config (persisting the volatile removal), persisting the new config with
`volatile.last_state.created` stripped, restart (which re-persists the fresh
volatile flag), and finally the dependency notification; with the
`notification` client type neither check ever appears in the trace; and any
`normal` Update that fails after the checks leaves the database record at the
prior description and config via the revert scope. -/
theorem C7_update_parent_vlan (n : Physical) (st : Sys) (d : String) (c : Config)
    (tn : String)
    (hpend : ¬(n.status = NetStatus.pending ∨ n.localStatus = NetStatus.pending))
    (hhc : ((changedKeys n.config c).contains "vlan" ||
      (changedKeys n.config c).contains "parent") = true)
    (hused : st.isUsed = false)
    (hscan : checkParentUse n.name st.nets c = false) :
    ((Update noFaults n st d c tn ClientType.normal).err = none ∧
     (Update noFaults n st d c tn ClientType.normal).tr =
       [Ev.checkInUse, Ev.scan, Ev.stopCall,
        Ev.dbWrite n.description (cfgDel n.config "volatile.last_state.created"),
        Ev.dbWrite d (cfgDel c "volatile.last_state.created"), Ev.startCall,
        Ev.dbWrite d (cfgSet (cfgDel c "volatile.last_state.created")
          "volatile.last_state.created"
          (if (cfgGet c "vlan" != "" &&
              !((Stop noFaults n st).sys.host.ifaces.contains
                (GetHostDevice (cfgGet c "parent") (cfgGet c "vlan")))) = true
           then "true" else "false")),
        Ev.notifyDeps] ∧
     (Update noFaults n st d c tn ClientType.normal).drv.description = d ∧
     (Update noFaults n st d c tn ClientType.normal).drv.config =
       cfgSet (cfgDel c "volatile.last_state.created") "volatile.last_state.created"
         (if (cfgGet c "vlan" != "" &&
             !((Stop noFaults n st).sys.host.ifaces.contains
               (GetHostDevice (cfgGet c "parent") (cfgGet c "vlan")))) = true
          then "true" else "false")) ∧
    (∀ (f2 : Faults) (n2 : Physical) (st2 : Sys) (d2 : String) (c2 : Config) (tn2 : String),
      Ev.scan ∉ (Update f2 n2 st2 d2 c2 tn2 ClientType.notification).tr ∧
      Ev.checkInUse ∉ (Update f2 n2 st2 d2 c2 tn2 ClientType.notification).tr) ∧
    (∀ (f2 : Faults) (n2 : Physical) (st2 : Sys) (d2 : String) (c2 : Config) (tn2 : String),
      st2.dbRecord = some (n2.description, n2.config) →
      (Update f2 n2 st2 d2 c2 tn2 ClientType.normal).err.isSome = true →
      (Update f2 n2 st2 d2 c2 tn2 ClientType.normal).sys.dbRecord =
        some (n2.description, n2.config)) := by
  refine ⟨?_, ?_, ?_⟩
  · have hcne : (changedKeys n.config c).isEmpty = false := by
      rcases Bool.or_eq_true_iff.mp hhc with h | h
      · exact isEmpty_false_of_contains _ _ h
      · exact isEmpty_false_of_contains _ _ h
    have e1 : (!((d != n.description) || !(changedKeys n.config c).isEmpty)) = false := by
      simp [hcne]
    have e2 : (n.status == NetStatus.pending || n.localStatus == NetStatus.pending) = false := by
      rw [Bool.or_eq_false_iff]
      constructor
      · apply beq_eq_false_iff_ne.mpr
        intro h
        exact hpend (Or.inl h)
      · apply beq_eq_false_iff_ne.mpr
        intro h
        exact hpend (Or.inr h)
    have g1 : cfgGet (cfgDel c "volatile.last_state.created") "vlan" = cfgGet c "vlan" :=
      cfgGet_cfgDel_ne c _ _ (by decide)
    have g2 : cfgGet (cfgDel c "volatile.last_state.created") "parent" = cfgGet c "parent" :=
      cfgGet_cfgDel_ne c _ _ (by decide)
    have g5 : cfgGet (cfgDel c "volatile.last_state.created") "volatile.last_state.created" =
        "" := cfgGet_cfgDel_self c _
    have e0 : (ClientType.normal == ClientType.normal) = true := by decide
    have e4 : noFaults.scanFails = false := rfl
    simp only [Update, e1, e2, hhc, hused, hscan, e0, e4, Bool.and_false, Bool.and_true,
      Bool.true_and, Bool.false_eq_true, if_false, eq_self_iff_true, if_true]
    rw [stop_nf]
    simp only [UpdateApply, commonUpdate_nf]
    simp only [Start, start_nf]
    simp [g1, g2, g5, IsTrue, hcne, hused, hscan]
  · intro f2 n2 st2 d2 c2 tn2
    constructor
    · intro hm
      rcases update_notif_tr f2 n2 st2 d2 c2 tn2 _ hm with h | h | h | ⟨d3, c3, h⟩ <;>
        simp at h
    · intro hm
      rcases update_notif_tr f2 n2 st2 d2 c2 tn2 _ hm with h | h | h | ⟨d3, c3, h⟩ <;>
        simp at h
  · intro f2 n2 st2 d2 c2 tn2 hinv herr
    exact update_fail_restores_db f2 n2 st2 d2 c2 tn2 hinv herr

def c7f : Faults :=
  ⟨true, false, false, false, false, false⟩

def c7n : Physical :=
  ⟨"physical0", "d",
    [("parent", "eth0"), ("vlan", "10"), ("volatile.last_state.created", "true")],
    NetStatus.created, NetStatus.created⟩

def c7st : Sys :=
  ⟨⟨["eth0.10", "eth0"], []⟩, some ("d", c7n.config), none, false, []⟩

def c7new : Config :=
  [("parent", "eth0"), ("vlan", "20")]

/-- Witness for C7: changing the VLAN from 10 to 20 on a started record runs
the full ordered path with no error; the same update under a faulting VLAN
creation fails after the checks and the database still holds the old record. -/
theorem C7_update_parent_vlan_witness :
    (¬(c7n.status = NetStatus.pending ∨ c7n.localStatus = NetStatus.pending) ∧
     ((changedKeys c7n.config c7new).contains "vlan" ||
       (changedKeys c7n.config c7new).contains "parent") = true ∧
     c7st.isUsed = false ∧ checkParentUse c7n.name c7st.nets c7new = false) ∧
    (Update noFaults c7n c7st "d" c7new "" ClientType.normal).err = none ∧
    Ev.scan ∉ (Update noFaults c7n c7st "d" c7new "" ClientType.notification).tr ∧
    (c7st.dbRecord = some (c7n.description, c7n.config) ∧
     (Update c7f c7n c7st "d" c7new "" ClientType.normal).err.isSome = true ∧
     (Update c7f c7n c7st "d" c7new "" ClientType.normal).sys.dbRecord =
       some (c7n.description, c7n.config)) := by
  have H := C7_update_parent_vlan c7n c7st "d" c7new "" (by decide) (by decide) (by decide)
    (by decide)
  exact ⟨⟨by decide, by decide, by decide, by decide⟩, H.1.1,
    (H.2.1 noFaults c7n c7st "d" c7new "").1,
    by decide, by decide,
    H.2.2 c7f c7n c7st "d" c7new "" (by decide) (by decide)⟩

end network
